import Mathlib

/-!
Verification of the multi-account GitHub MCP server against its
natural-language specification.  The Rust sources are shallowly embedded:
pure argument construction and output classification become Lean functions,
the filesystem and the spawned `gh` subprocess become explicit oracles
passed as arguments, and external library calls (serde_json parsing,
base64 decoding, UTF-8 validation) are abstracted as function parameters
supplied by each theorem.  Strings captured from the process are modelled
as Lean `String`s (the `from_utf8_lossy` conversion is the identity on the
model); `trim` is modelled by `strTrim` below, matching Rust's `str::trim`
on the ASCII whitespace that all claims exercise.
-/

namespace MultiAccountGithubMcp

/-- Model of `serde_json::Value`. -/
inductive Json where
  | null
  | bool (b : Bool)
  | num (n : Int)
  | str (s : String)
  | arr (elems : List Json)
  | obj (fields : List (String × Json))

/-- `value["key"]`: serde_json's `Index<&str>` yields the field when the
value is an object containing it, and `Null` otherwise. -/
def Json.index (j : Json) (key : String) : Json :=
  match j with
  | .obj fields => (fields.lookup key).getD .null
  | _ => .null

/-- `Value::as_str`: `Some` exactly on string values. -/
def Json.asStr : Json → Option String
  | .str s => some s
  | _ => none

/-- `value["key"] = v` on an object: replace the field if present, append
it otherwise (other value shapes are left unchanged in the model; the code
only assigns into `json!(\x7b\x7d)`). -/
def Json.setField : Json → String → Json → Json
  | .obj fields, key, v =>
    if (fields.lookup key).isSome then
      .obj (fields.map (fun kv => if kv.1 = key then (key, v) else kv))
    else
      .obj (fields ++ [(key, v)])
  | j, _, _ => j

/-- The error enum of `src/error.rs` (foreign error payloads carried as
their display strings). -/
inductive Error : Type where
  | config (msg : String)
  | accountNotFound (name : String)
  | tokenNotFound (path : String)
  | tokenRead (msg : String)
  | ghCli (msg : String)
  | ghNotFound
  | jsonParse (msg : String)
  | yamlParse (msg : String)
  | ioError (msg : String)
  | mcp (msg : String)
  | tool (msg : String)
deriving DecidableEq

/-- The `Display` impl generated by the `#[error(...)]` attributes in
`src/error.rs`. -/
def Error.display : Error → String
  | .config m => "Configuration error: " ++ m
  | .accountNotFound n => "Account not found: " ++ n
  | .tokenNotFound p => "Token file not found: " ++ p
  | .tokenRead m => "Token file read error: " ++ m
  | .ghCli m => "gh CLI error: " ++ m
  | .ghNotFound => "gh CLI not found. Install from https://cli.github.com"
  | .jsonParse m => "JSON parse error: " ++ m
  | .yamlParse m => "YAML parse error: " ++ m
  | .ioError m => "IO error: " ++ m
  | .mcp m => "MCP error: " ++ m
  | .tool m => "Tool error: " ++ m

/-- `LogConfig` from `src/config.rs`. -/
structure LogConfig where
  level : String
  file : Option String

/-- `Config` from `src/config.rs`; the `HashMap` of accounts is modelled
as an association list. -/
structure Config where
  default_account : String
  accounts : List (String × String)
  logging : LogConfig

/-- The filesystem as an oracle: existence check and `fs::read_to_string`
(whose failure carries the io error's display string). -/
structure FileSystem where
  pathExists : String → Bool
  readToString : String → Except String String

/-- `shellexpand::tilde`: a leading `~` alone becomes the home directory,
a leading `~/` is replaced by the home directory, anything else is
returned unchanged. -/
def tildeExpand (home path : String) : String :=
  match path.data with
  | ['~'] => home
  | '~' :: '/' :: rest => home ++ ⟨'/' :: rest⟩
  | _ => path

/-- Model of Rust's `str::trim` as used throughout the sources: drop
whitespace from both ends (the claims only exercise ASCII whitespace,
which `Char.isWhitespace` covers). -/
def strTrim (s : String) : String :=
  ⟨((s.data.dropWhile Char.isWhitespace).reverse.dropWhile Char.isWhitespace).reverse⟩

/-- `Config::get_token_path` (src/config.rs lines 108-114). -/
def Config.get_token_path (cfg : Config) (name : Option String) : Except Error String :=
  let account_name := name.getD cfg.default_account
  match cfg.accounts.lookup account_name with
  | some s => .ok s
  | none => .error (.accountNotFound account_name)

/-- `Config::get_token` (src/config.rs lines 117-136). -/
def Config.get_token (cfg : Config) (fs : FileSystem) (home : String)
    (account : Option String) : Except Error String :=
  match cfg.get_token_path account with
  | .error e => .error e
  | .ok token_path =>
    let expanded_path := tildeExpand home token_path
    if fs.pathExists expanded_path = false then
      .error (.tokenNotFound expanded_path)
    else
      match fs.readToString expanded_path with
      | .error e => .error (.tokenRead (expanded_path ++ ": " ++ e))
      | .ok content =>
        let token := strTrim content
        if token.isEmpty then
          .error (.tokenRead ("Token file is empty: " ++ expanded_path))
        else
          .ok token

/-- A completed subprocess: exit-status success flag plus captured stdout
and stderr (already converted from bytes, as in `from_utf8_lossy`). -/
structure Output where
  success : Bool
  stdout : String
  stderr : String

/-- Outcome of spawning and awaiting the `gh` child process: the spawn or
the wait can fail with an io error, otherwise an `Output` is captured. -/
inductive ProcResult where
  | spawnFail (msg : String)
  | waitFail (msg : String)
  | completed (output : Output)

namespace GhClient

/-- The non-zero-exit diagnostic of src/gh.rs lines 62-66 and 105-109:
stdout if stderr is empty, else stderr; then trimmed. -/
def failureMessage (stdout stderr : String) : String :=
  strTrim (if stderr.isEmpty then stdout else stderr)

/-- Classification of a completed process in structured (JSON) mode,
src/gh.rs lines 62-80.  `parseJson` stands for `serde_json::from_str`,
failing with the serde error's display string. -/
def classifyStructured (parseJson : String → Except String Json) (output : Output) :
    Except Error Json :=
  if output.success = false then
    .error (.ghCli (failureMessage output.stdout output.stderr))
  else if (strTrim output.stdout).isEmpty then
    .ok .null
  else
    match parseJson output.stdout with
    | .ok json => .ok json
    | .error e =>
      .error (.ghCli ("Failed to parse gh output as JSON: " ++ e ++ "\nOutput: " ++ output.stdout))

/-- Classification of a completed process in raw-text mode, src/gh.rs
lines 105-112: stdout is returned verbatim on success. -/
def classifyRaw (output : Output) : Except Error String :=
  if output.success = false then
    .error (.ghCli (failureMessage output.stdout output.stderr))
  else
    .ok output.stdout

/-- `GhClient::run` (src/gh.rs lines 41-81).  `spawn` is the subprocess
oracle: it receives the resolved token (injected via `GH_TOKEN`) and the
argument vector.  The boolean records whether a subprocess spawn was ever
attempted, so that credential failures are visibly spawn-free. -/
def run (cfg : Config) (fs : FileSystem) (home : String)
    (parseJson : String → Except String Json) (spawn : String → List String → ProcResult)
    (account : Option String) (args : List String) : Except Error Json × Bool :=
  match cfg.get_token fs home account with
  | .error e => (.error e, false)
  | .ok token =>
    match spawn token args with
    | .spawnFail m => (.error (.ghCli ("Failed to spawn gh: " ++ m)), true)
    | .waitFail m => (.error (.ghCli ("Failed to wait for gh: " ++ m)), true)
    | .completed output => (classifyStructured parseJson output, true)

/-- `GhClient::run_raw` (src/gh.rs lines 84-113). -/
def run_raw (cfg : Config) (fs : FileSystem) (home : String)
    (spawn : String → List String → ProcResult)
    (account : Option String) (args : List String) : Except Error String × Bool :=
  match cfg.get_token fs home account with
  | .error e => (.error e, false)
  | .ok token =>
    match spawn token args with
    | .spawnFail m => (.error (.ghCli ("Failed to spawn gh: " ++ m)), true)
    | .waitFail m => (.error (.ghCli ("Failed to wait for gh: " ++ m)), true)
    | .completed output => (classifyRaw output, true)

/-- Argument assembly of `GhClient::api` (src/gh.rs lines 122-145): base
verb, optional method flag, endpoint, then repeated `-f key=value`
pairs. -/
def api_args (endpoint : String) (method : Option String)
    (fields : Option (List (String × String))) : List String :=
  let args := ["api"] ++ (match method with | some m => ["-X", m] | none => []) ++ [endpoint]
  args ++ (fields.getD []).flatMap (fun kv => ["-f", kv.1 ++ "=" ++ kv.2])

end GhClient

/-- A piece of protocol content: `Content::text` or `Content::json`. -/
inductive Content where
  | text (s : String)
  | json (j : Json)

/-- `rmcp::model::CallToolResult`. -/
structure CallToolResult where
  isError : Bool
  content : List Content

/-- `CallToolResult::success`. -/
def CallToolResult.success (content : List Content) : CallToolResult :=
  { isError := false, content := content }

/-- A transport-level error (`McpError`); `GitHubMcpServer::err` wraps an
internal error's display string (src/mcp/server.rs lines 41-43). -/
structure McpError where
  message : String

namespace GitHubMcpServer

/-- The recurring `.map_err(Self::err)?; Ok(CallToolResult::success(
vec![Content::json(&result)?]))` tail of the JSON-returning tools. -/
def jsonToolRespond (result : Except Error Json) : Except McpError CallToolResult :=
  match result with
  | .ok r => .ok (CallToolResult.success [Content.json r])
  | .error e => .error { message := e.display }

/-- `RequiredStatusChecks` from src/tools/protection.rs. -/
structure RequiredStatusChecks where
  strict : Option Bool
  contexts : Option (List String)

/-- `RequiredPullRequestReviews` from src/tools/protection.rs. -/
structure RequiredPullRequestReviews where
  required_approving_review_count : Option Nat
  dismiss_stale_reviews : Option Bool
  require_code_owner_reviews : Option Bool

/-- `SetBranchProtectionRequest` from src/tools/protection.rs. -/
structure SetBranchProtectionRequest where
  account : Option String
  owner : String
  repo : String
  branch : String
  required_status_checks : Option RequiredStatusChecks
  enforce_admins : Option Bool
  required_pull_request_reviews : Option RequiredPullRequestReviews
  restrictions : Option Bool
  required_signatures : Option Bool
  required_linear_history : Option Bool
  allow_force_pushes : Option Bool
  allow_deletions : Option Bool

/-- The protection endpoint of src/mcp/server.rs lines 259-262. -/
def set_branch_protection_endpoint (p : SetBranchProtectionRequest) : String :=
  "repos/" ++ p.owner ++ "/" ++ p.repo ++ "/branches/" ++ p.branch ++ "/protection"

/-- The protection-settings JSON body built in src/mcp/server.rs lines
265-300.  The code serializes it into `_body_str` and never uses it
(line 304). -/
def set_branch_protection_body (p : SetBranchProtectionRequest) : Json :=
  let body := Json.obj []
  let body := body.setField "required_status_checks"
    (match p.required_status_checks with
     | some checks => Json.obj
         [("strict", .bool (checks.strict.getD false)),
          ("contexts", .arr ((checks.contexts.getD []).map Json.str))]
     | none => .null)
  let body := body.setField "enforce_admins" (.bool (p.enforce_admins.getD false))
  let body := body.setField "required_pull_request_reviews"
    (match p.required_pull_request_reviews with
     | some reviews => Json.obj
         [("required_approving_review_count",
           .num (Int.ofNat (reviews.required_approving_review_count.getD 1))),
          ("dismiss_stale_reviews", .bool (reviews.dismiss_stale_reviews.getD false)),
          ("require_code_owner_reviews", .bool (reviews.require_code_owner_reviews.getD false))]
     | none => .null)
  let body := body.setField "restrictions" .null
  let body := match p.required_linear_history with
    | some linear => body.setField "required_linear_history" (.bool linear)
    | none => body
  let body := match p.allow_force_pushes with
    | some force => body.setField "allow_force_pushes" (.bool force)
    | none => body
  let body := match p.allow_deletions with
    | some del => body.setField "allow_deletions" (.bool del)
    | none => body
  body

/-- The argument vector actually passed to `gh` by `set_branch_protection`
(src/mcp/server.rs lines 305-321): only `enforce_admins` is transmitted. -/
def set_branch_protection_args (p : SetBranchProtectionRequest) : List String :=
  let _body := set_branch_protection_body p
  ["api", "-X", "PUT", set_branch_protection_endpoint p,
   "-H", "Accept: application/vnd.github+json",
   "-f", "enforce_admins=" ++ toString (p.enforce_admins.getD false)]

/-- The explanatory note attached when the `gh` invocation fails
(src/mcp/server.rs lines 326-328). -/
def protectionNote (e : Error) : String :=
  "Branch protection update attempted. Note: Full protection settings may require direct API access. Error details: "
    ++ e.display

/-- The match on the run result in `set_branch_protection`
(src/mcp/server.rs lines 324-329): success keeps the structured payload,
any error is downgraded into a success-shaped text note. -/
def set_branch_protection_respond (result : Except Error Json) : Except McpError CallToolResult :=
  match result with
  | .ok r => .ok (CallToolResult.success [Content.json r])
  | .error e => .ok (CallToolResult.success [Content.text (protectionNote e)])

/-- `CreateBranchRequest` from src/tools/branches.rs. -/
structure CreateBranchRequest where
  account : Option String
  owner : String
  repo : String
  branch : String
  «from» : Option String

/-- `let source = params.0.from.as_deref().unwrap_or("HEAD")`
(src/mcp/server.rs line 183). -/
def create_branch_source (p : CreateBranchRequest) : String :=
  p.«from».getD "HEAD"

/-- The ref-lookup endpoint of src/mcp/server.rs line 184. -/
def create_branch_lookup_endpoint (p : CreateBranchRequest) : String :=
  "repos/" ++ p.owner ++ "/" ++ p.repo ++ "/git/ref/heads/" ++ create_branch_source p

/-- The sha resolution of src/mcp/server.rs lines 187-194: on lookup
success take `result["object"]["sha"]` (falling back to the source string
when absent), on lookup failure use the source string literally. -/
def create_branch_sha (p : CreateBranchRequest) (lookup : Except Error Json) : String :=
  match lookup with
  | .ok result => (((result.index "object").index "sha").asStr).getD (create_branch_source p)
  | .error _ => create_branch_source p

/-- The branch-creation argument vector of src/mcp/server.rs lines
196-203. -/
def create_branch_args (p : CreateBranchRequest) (lookup : Except Error Json) : List String :=
  ["api", "-X", "POST", "repos/" ++ p.owner ++ "/" ++ p.repo ++ "/git/refs",
   "-f", "ref=refs/heads/" ++ p.branch,
   "-f", "sha=" ++ create_branch_sha p lookup]

/-- `create_branch` end to end (src/mcp/server.rs lines 181-209): `api`
is the gateway oracle for the read-only lookup (endpoint to result) and
`runGh` the gateway oracle for the mutating call (argument vector to
result). -/
def create_branch (p : CreateBranchRequest) (api : String → Except Error Json)
    (runGh : List String → Except Error Json) : Except McpError CallToolResult :=
  let lookup := api (create_branch_lookup_endpoint p)
  jsonToolRespond (runGh (create_branch_args p lookup))

/-- `CreateTagRequest` from src/tools/tags.rs. -/
structure CreateTagRequest where
  account : Option String
  owner : String
  repo : String
  tag : String
  sha : Option String
  message : Option String

/-- The sha-resolution phase of `create_tag` (src/mcp/server.rs lines
870-892): with `sha` unset, look up the repository's default branch and
then its head commit, propagating either lookup's error. -/
def create_tag_resolve_sha (p : CreateTagRequest) (api : String → Except Error Json) :
    Except Error String :=
  match p.sha with
  | some s => .ok s
  | none =>
    match api ("repos/" ++ p.owner ++ "/" ++ p.repo) with
    | .error e => .error e
    | .ok repo_info =>
      let default_branch := ((repo_info.index "default_branch").asStr).getD "main"
      match api ("repos/" ++ p.owner ++ "/" ++ p.repo ++ "/git/ref/heads/" ++ default_branch) with
      | .error e => .error e
      | .ok ref_info => .ok ((((ref_info.index "object").index "sha").asStr).getD "")

/-- `create_tag` up to the mutating call (src/mcp/server.rs lines
868-906): a lookup error aborts the operation via `map_err(Self::err)?`;
otherwise the tag-creation argument vector is produced. -/
def create_tag (p : CreateTagRequest) (api : String → Except Error Json) :
    Except McpError (List String) :=
  match create_tag_resolve_sha p api with
  | .error e => .error { message := e.display }
  | .ok sha =>
    .ok ["api", "-X", "POST", "repos/" ++ p.owner ++ "/" ++ p.repo ++ "/git/refs",
         "-f", "ref=refs/tags/" ++ p.tag,
         "-f", "sha=" ++ sha]

/-- `GetPrDiffRequest` from src/tools/prs.rs. -/
structure GetPrDiffRequest where
  account : Option String
  owner : String
  repo : String
  number : Nat

/-- The argument vector of `get_pr_diff` (src/mcp/server.rs line 383). -/
def get_pr_diff_args (p : GetPrDiffRequest) : List String :=
  ["pr", "diff", toString p.number, "--repo", p.owner ++ "/" ++ p.repo]

/-- The tail of `get_pr_diff` (src/mcp/server.rs lines 384-391): the
result of the structured `run` is unwrapped with `as_str().unwrap_or("")`
and returned as text. -/
def get_pr_diff_respond (result : Except Error Json) : Except McpError CallToolResult :=
  match result with
  | .ok r => .ok (CallToolResult.success [Content.text (r.asStr.getD "")])
  | .error e => .error { message := e.display }

/-- `get_pr_diff` as a function of the completed subprocess output: the
tool routes the diff through the structured (JSON-parsing) `run`, not
through `run_raw`. -/
def get_pr_diff_outcome (parseJson : String → Except String Json) (output : Output) :
    Except McpError CallToolResult :=
  get_pr_diff_respond (GhClient.classifyStructured parseJson output)

/-- `GetFileRequest` from src/tools/code.rs. -/
structure GetFileRequest where
  account : Option String
  owner : String
  repo : String
  path : String
  ref? : Option String

/-- `content.replace('\n', "")` (src/mcp/server.rs line 625). -/
def stripNewlines (s : String) : String :=
  ⟨s.toList.filter (fun c => c ≠ '\n')⟩

/-- The response shaping of `get_file` (src/mcp/server.rs lines 623-633).
`decode64` stands for the base64 STANDARD engine's decode and `utf8For`
for `String::from_utf8`; both are library oracles.  Only when the
`content` field is a string that decodes and validates does the decoded
text replace the structured envelope. -/
def get_file_respond (decode64 : String → Option (List Nat))
    (utf8For : List Nat → Option String) (result : Json) : CallToolResult :=
  match (result.index "content").asStr with
  | some content =>
    let decoded := stripNewlines content
    match decode64 decoded with
    | some bytes =>
      match utf8For bytes with
      | some text => CallToolResult.success [Content.text text]
      | none => CallToolResult.success [Content.json result]
    | none => CallToolResult.success [Content.json result]
  | none => CallToolResult.success [Content.json result]

end GitHubMcpServer

open GitHubMcpServer GhClient

/-- C1: when the `gh` invocation issued by the branch-protection update
fails (in particular with an external tool error, `Error.ghCli`), the
operation still returns a success-shaped protocol result whose payload is
a human-readable text note describing the limitation and ending with the
underlying error's message; the failure is never propagated as a protocol
error, and a successful invocation yields the structured payload. -/
theorem C1_branch_protection_downgrade (e : Error) (msg : String) (j : Json) :
    set_branch_protection_respond (.error e) =
      .ok (CallToolResult.success [Content.text (protectionNote e)]) ∧
    (CallToolResult.success [Content.text (protectionNote e)]).isError = false ∧
    protectionNote (.ghCli msg) =
      "Branch protection update attempted. Note: Full protection settings may require direct API access. Error details: "
        ++ ("gh CLI error: " ++ msg) ∧
    set_branch_protection_respond (.ok j) =
      .ok (CallToolResult.success [Content.json j]) :=
  ⟨rfl, rfl, rfl, rfl⟩

/-- C2 counterexample: with a non-zero exit, stdout `"boom"` and stderr
consisting of a single space, the surfaced message is the trimmed stderr
(the empty string), not the trimmed stdout `"boom"`: the code tests
byte-emptiness of stderr, not trim-emptiness. -/
theorem C2_counterexample :
    classifyRaw { success := false, stdout := "boom", stderr := " " } =
      .error (.ghCli "") ∧
    classifyStructured (fun _ => .error "e")
        { success := false, stdout := "boom", stderr := " " } =
      .error (.ghCli "") ∧
    strTrim "boom" = "boom" ∧
    ("" : String) ≠ "boom" := by
  refine ⟨rfl, rfl, rfl, by decide⟩

/-- C2 amended: on a non-zero exit both execute functions surface a
`ghCli` error whose message is the trimmed stderr whenever stderr is
non-empty as a raw string (even when it is whitespace-only, which yields
the empty message), and the trimmed stdout only when stderr is the empty
string. -/
theorem C2_amended_failure_message (parseJson : String → Except String Json)
    (output : Output) (h : output.success = false) :
    classifyStructured parseJson output =
      .error (.ghCli (if output.stderr.isEmpty then strTrim output.stdout else strTrim output.stderr)) ∧
    classifyRaw output =
      .error (.ghCli (if output.stderr.isEmpty then strTrim output.stdout else strTrim output.stderr)) := by
  have hm : failureMessage output.stdout output.stderr =
      if output.stderr.isEmpty then strTrim output.stdout else strTrim output.stderr := by
    by_cases hc : output.stderr.isEmpty <;> simp [failureMessage, hc]
  constructor <;> simp [classifyStructured, classifyRaw, h, hm]

/-- Witness for C2's amended theorem at a concrete failing outcome. -/
theorem C2_amended_witness :
    classifyStructured (fun _ => .error "e") { success := false, stdout := " boom\n", stderr := "" } =
      .error (.ghCli "boom") ∧
    classifyRaw { success := false, stdout := " boom\n", stderr := "" } =
      .error (.ghCli "boom") := by
  have h := C2_amended_failure_message (fun _ => .error "e")
    { success := false, stdout := " boom\n", stderr := "" } rfl
  exact ⟨h.1.trans rfl, h.2.trans rfl⟩

/-- C10: two set-branch-protection requests agreeing on account, owner,
repo, branch and enforce_admins produce identical argument vectors, no
matter how the remaining protection fields differ: only enforce_admins is
transmitted to the external tool. -/
theorem C10_protection_args_ignore_rich_fields (p q : SetBranchProtectionRequest)
    (haccount : p.account = q.account) (howner : p.owner = q.owner)
    (hrepo : p.repo = q.repo) (hbranch : p.branch = q.branch)
    (hadmins : p.enforce_admins = q.enforce_admins) :
    set_branch_protection_args p = set_branch_protection_args q := by
  simp [set_branch_protection_args, set_branch_protection_endpoint,
    howner, hrepo, hbranch, hadmins]

/-- C3: for a configured account, credential resolution returns exactly
the trimmed token-file content; a missing file yields `TokenNotFound`
carrying the (expanded) path, an unreadable file yields `TokenReadError`,
and trim-empty content yields `TokenReadError` rather than an empty
credential. -/
theorem C3_get_token_resolution (cfg : Config) (fs : FileSystem) (home name path : String)
    (hlook : cfg.accounts.lookup name = some path) :
    (∀ content, fs.pathExists (tildeExpand home path) = true →
        fs.readToString (tildeExpand home path) = .ok content →
        (strTrim content).isEmpty = false →
        cfg.get_token fs home (some name) = .ok (strTrim content)) ∧
    (fs.pathExists (tildeExpand home path) = false →
        cfg.get_token fs home (some name) =
          .error (.tokenNotFound (tildeExpand home path))) ∧
    (∀ cause, fs.pathExists (tildeExpand home path) = true →
        fs.readToString (tildeExpand home path) = .error cause →
        cfg.get_token fs home (some name) =
          .error (.tokenRead (tildeExpand home path ++ ": " ++ cause))) ∧
    (∀ content, fs.pathExists (tildeExpand home path) = true →
        fs.readToString (tildeExpand home path) = .ok content →
        (strTrim content).isEmpty = true →
        cfg.get_token fs home (some name) =
          .error (.tokenRead ("Token file is empty: " ++ tildeExpand home path))) := by
  have hp : cfg.get_token_path (some name) = .ok path := by
    simp [Config.get_token_path, hlook]
  refine ⟨?_, ?_, ?_, ?_⟩
  · intro content hex hread hne
    simp [Config.get_token, hp, hex, hread, hne]
  · intro hex
    simp [Config.get_token, hp, hex]
  · intro cause hex hread
    simp [Config.get_token, hp, hex, hread]
  · intro content hex hread he
    simp [Config.get_token, hp, hex, hread, he]

/-- Witness for C3 at a concrete configuration, filesystem and home
directory, exercising tilde expansion and trimming. -/
theorem C3_witness :
    Config.get_token
      { default_account := "work", accounts := [("work", "~/token")],
        logging := { level := "info", file := none } }
      { pathExists := fun p => p == "/home/u/token",
        readToString := fun p => if p == "/home/u/token" then .ok "  ghp_tok\n" else .error "io" }
      "/home/u" (some "work") = .ok "ghp_tok" := by
  have h := C3_get_token_resolution
    { default_account := "work", accounts := [("work", "~/token")],
      logging := { level := "info", file := none } }
    { pathExists := fun p => p == "/home/u/token",
      readToString := fun p => if p == "/home/u/token" then .ok "  ghp_tok\n" else .error "io" }
    "/home/u" "work" "~/token" rfl
  exact h.1 "  ghp_tok\n" rfl rfl rfl

/-- C4: create-branch with `from` unset looks up the ref `HEAD` first
(its lookup call targets `.../git/ref/heads/HEAD` and is issued with a
bare `api` argument vector); if that lookup fails the branch-creation
call is still issued with the literal target `sha=HEAD` (the lookup error
is not propagated), and on a successful lookup the response's
`object.sha` is used. -/
theorem C4_create_branch_head_fallback (p : CreateBranchRequest)
    (api : String → Except Error Json) (runGh : List String → Except Error Json) (e : Error)
    (hfrom : p.«from» = none)
    (hfail : api ("repos/" ++ p.owner ++ "/" ++ p.repo ++ "/git/ref/heads/HEAD") = .error e) :
    create_branch_lookup_endpoint p =
      "repos/" ++ p.owner ++ "/" ++ p.repo ++ "/git/ref/heads/HEAD" ∧
    GhClient.api_args (create_branch_lookup_endpoint p) none none =
      ["api", "repos/" ++ p.owner ++ "/" ++ p.repo ++ "/git/ref/heads/HEAD"] ∧
    create_branch p api runGh =
      jsonToolRespond (runGh
        ["api", "-X", "POST", "repos/" ++ p.owner ++ "/" ++ p.repo ++ "/git/refs",
         "-f", "ref=refs/heads/" ++ p.branch, "-f", "sha=" ++ "HEAD"]) ∧
    (∀ r s, ((r.index "object").index "sha").asStr = some s →
        create_branch_sha p (.ok r) = s) := by
  have hend : create_branch_lookup_endpoint p =
      "repos/" ++ p.owner ++ "/" ++ p.repo ++ "/git/ref/heads/HEAD" := by
    simp only [create_branch_lookup_endpoint, create_branch_source, hfrom, Option.getD_none]
    rw [String.append_assoc]
    rfl
  refine ⟨hend, ?_, ?_, ?_⟩
  · simp [GhClient.api_args, hend]
  · simp [create_branch, create_branch_args, create_branch_sha, hend, hfail,
      create_branch_source, hfrom]
  · intro r s hs
    simp [create_branch_sha, hs]

/-- Witness for C4 at a concrete request with `from` unset and a failing
lookup oracle. -/
theorem C4_witness :
    create_branch_lookup_endpoint
        { account := none, owner := "o", repo := "r", branch := "feat", «from» := none } =
      "repos/o/r/git/ref/heads/HEAD" ∧
    create_branch
        { account := none, owner := "o", repo := "r", branch := "feat", «from» := none }
        (fun _ => .error (.ghCli "x")) (fun _ => .ok .null) =
      jsonToolRespond ((fun _ => (.ok .null : Except Error Json))
        ["api", "-X", "POST", "repos/o/r/git/refs",
         "-f", "ref=refs/heads/feat", "-f", "sha=HEAD"]) := by
  have h := C4_create_branch_head_fallback
    { account := none, owner := "o", repo := "r", branch := "feat", «from» := none }
    (fun _ => .error (.ghCli "x")) (fun _ => .ok .null) (.ghCli "x") rfl rfl
  exact ⟨h.1.trans rfl, h.2.2.1.trans rfl⟩

/-- C5 counterexample: create-tag with `sha` unset and a failing
read-only lookup phase does NOT fall back to a literal identifier — the
lookup error is propagated and the mutating tag-creation call is never
produced. -/
theorem C5_counterexample :
    create_tag
        { account := none, owner := "o", repo := "r", tag := "v1", sha := none, message := none }
        (fun _ => .error (.ghCli "boom")) =
      .error { message := "gh CLI error: boom" } := rfl

/-- C5 amended: for create-tag with `sha` unset, a failure of either
call of the read-only lookup phase — the repository-info lookup, or the
subsequent ref lookup for the default branch's tip — is propagated to
the caller as a transport error carrying the error's display string, and
the tag-creation call does not proceed; the literal identifier fallback
exists only in create-branch. -/
theorem C5_amended_create_tag_propagates_lookup_error (p : CreateTagRequest)
    (api : String → Except Error Json) (hsha : p.sha = none) :
    (∀ e, api ("repos/" ++ p.owner ++ "/" ++ p.repo) = .error e →
        create_tag p api = .error { message := e.display }) ∧
    (∀ repo_info e, api ("repos/" ++ p.owner ++ "/" ++ p.repo) = .ok repo_info →
        api ("repos/" ++ p.owner ++ "/" ++ p.repo ++ "/git/ref/heads/" ++
          (((repo_info.index "default_branch").asStr).getD "main")) = .error e →
        create_tag p api = .error { message := e.display }) := by
  constructor
  · intro e hfail
    simp [create_tag, create_tag_resolve_sha, hsha, hfail]
  · intro repo_info e hok hfail
    simp [create_tag, create_tag_resolve_sha, hsha, hok, hfail]

/-- Witness for C5's amended theorem at a concrete request whose oracle
answers the repository-info lookup but fails the second, ref lookup. -/
theorem C5_amended_witness :
    create_tag
        { account := none, owner := "own", repo := "rep", tag := "v2", sha := none, message := none }
        (fun s => if s = "repos/own/rep" then .ok (.obj [("default_branch", .str "main")])
                  else .error (.ghCli "ref boom")) =
      .error { message := "gh CLI error: ref boom" } := by
  have h := C5_amended_create_tag_propagates_lookup_error
    { account := none, owner := "own", repo := "rep", tag := "v2", sha := none, message := none }
    (fun s => if s = "repos/own/rep" then .ok (.obj [("default_branch", .str "main")])
              else .error (.ghCli "ref boom")) rfl
  exact (h.2 (.obj [("default_branch", .str "main")]) (.ghCli "ref boom") rfl rfl).trans rfl

/-- C6 (code bug): get-pr-diff routes the diff through the structured
JSON-parsing `run`, so a successful subprocess whose stdout is an
ordinary (non-JSON) diff produces a transport error instead of the
verbatim text; the raw-text classifier (`run_raw`, which no caller uses)
would have returned exactly that stdout. -/
theorem C6_pr_diff_routed_through_json_mode (parseJson : String → Except String Json)
    (e : String) (hparse : parseJson "diff --git a/f b/f\n" = .error e) :
    get_pr_diff_outcome parseJson
        { success := true, stdout := "diff --git a/f b/f\n", stderr := "" } =
      .error { message := Error.display (.ghCli
        ("Failed to parse gh output as JSON: " ++ e ++ "\nOutput: " ++ "diff --git a/f b/f\n")) } ∧
    GhClient.classifyRaw { success := true, stdout := "diff --git a/f b/f\n", stderr := "" } =
      .ok "diff --git a/f b/f\n" := by
  have hne : (strTrim "diff --git a/f b/f\n").isEmpty = false := by decide
  constructor
  · simp [get_pr_diff_outcome, get_pr_diff_respond, GhClient.classifyStructured, hne, hparse]
  · rfl

/-- Witness for C6 at a concrete parse oracle failing on the diff text. -/
theorem C6_witness :
    get_pr_diff_outcome (fun _ => .error "expected value")
        { success := true, stdout := "diff --git a/f b/f\n", stderr := "" } =
      .error { message :=
        "gh CLI error: Failed to parse gh output as JSON: expected value\nOutput: diff --git a/f b/f\n" } := by
  have h := C6_pr_diff_routed_through_json_mode (fun _ => .error "expected value")
    "expected value" rfl
  exact h.1.trans rfl

/-- C7 counterexample: the parse-failure error is NOT a variant distinct
from the non-zero-exit error — both are `Error.ghCli`, and a non-zero
exit whose stderr happens to equal the parse-failure text produces the
very same error value. -/
theorem C7_counterexample :
    GhClient.classifyStructured (fun _ => .error "err")
        { success := true, stdout := "x", stderr := "" } =
      .error (.ghCli "Failed to parse gh output as JSON: err\nOutput: x") ∧
    GhClient.classifyStructured (fun _ => .error "err")
        { success := false, stdout := "",
          stderr := "Failed to parse gh output as JSON: err\nOutput: x" } =
      .error (.ghCli "Failed to parse gh output as JSON: err\nOutput: x") :=
  ⟨rfl, rfl⟩

/-- C7 amended: on a successful exit in structured mode, an empty trimmed
stdout yields the neutral null result (not an error), and a parse failure
on non-empty stdout yields an error of the same `ghCli` variant used for
non-zero exits, distinguished only by its message, which starts with a
fixed parse-failure text and embeds the entire raw output. -/
theorem C7_amended_parse_failure_same_variant (parseJson : String → Except String Json)
    (output : Output) (e : String) (h : output.success = true) :
    ((strTrim output.stdout).isEmpty = true →
        GhClient.classifyStructured parseJson output = .ok .null) ∧
    ((strTrim output.stdout).isEmpty = false → parseJson output.stdout = .error e →
        GhClient.classifyStructured parseJson output =
          .error (.ghCli
            ("Failed to parse gh output as JSON: " ++ e ++ "\nOutput: " ++ output.stdout))) := by
  constructor
  · intro he
    simp [GhClient.classifyStructured, h, he]
  · intro he hp
    simp [GhClient.classifyStructured, h, he, hp]

/-- Witness for C7's amended theorem: whitespace-only stdout on a
successful exit yields the neutral null result. -/
theorem C7_amended_witness :
    GhClient.classifyStructured (fun _ => .error "err")
        { success := true, stdout := "  \n", stderr := "" } = .ok .null := by
  have h := C7_amended_parse_failure_same_variant (fun _ => .error "err")
    { success := true, stdout := "  \n", stderr := "" } "err" rfl
  exact h.1 rfl

/-- C8: an account name absent from the configuration makes credential
resolution fail with `AccountNotFound` carrying that very name (no
fallback to the default account), and both execute functions return that
error without ever consulting the subprocess oracle. -/
theorem C8_unknown_account_no_spawn (cfg : Config) (fs : FileSystem) (home n : String)
    (parseJson : String → Except String Json) (spawn : String → List String → ProcResult)
    (args : List String) (h : cfg.accounts.lookup n = none) :
    GhClient.run cfg fs home parseJson spawn (some n) args =
      (.error (.accountNotFound n), false) ∧
    GhClient.run_raw cfg fs home spawn (some n) args =
      (.error (.accountNotFound n), false) := by
  have ht : cfg.get_token fs home (some n) = .error (.accountNotFound n) := by
    simp [Config.get_token, Config.get_token_path, h]
  constructor <;> simp [GhClient.run, GhClient.run_raw, ht]

/-- Witness for C8 at a concrete configuration and an unconfigured
account name. -/
theorem C8_witness :
    GhClient.run
        { default_account := "default", accounts := [("home", "/t")],
          logging := { level := "info", file := none } }
        { pathExists := fun _ => true, readToString := fun _ => .ok "tok" }
        "/home/u" (fun _ => .ok .null) (fun _ _ => .completed { success := true, stdout := "", stderr := "" })
        (some "missing") ["api", "user"] =
      (.error (.accountNotFound "missing"), false) := by
  have h := C8_unknown_account_no_spawn
    { default_account := "default", accounts := [("home", "/t")],
      logging := { level := "info", file := none } }
    { pathExists := fun _ => true, readToString := fun _ => .ok "tok" }
    "/home/u" "missing" (fun _ => .ok .null)
    (fun _ _ => .completed { success := true, stdout := "", stderr := "" })
    ["api", "user"] rfl
  exact h.1

/-- C9: get-file returns decoded text exactly when the structured
response's `content` field is a string that, with internal line breaks
stripped, base64-decodes to valid UTF-8 text; in every failure case
(decode failure, UTF-8 failure, field absent or non-string) the original
structured envelope is returned unchanged. -/
theorem C9_get_file_content_decode (decode64 : String → Option (List Nat))
    (utf8For : List Nat → Option String) (r : Json) :
    (∀ s b t, (r.index "content").asStr = some s → decode64 (stripNewlines s) = some b →
        utf8For b = some t →
        get_file_respond decode64 utf8For r = CallToolResult.success [Content.text t]) ∧
    (∀ s b, (r.index "content").asStr = some s → decode64 (stripNewlines s) = some b →
        utf8For b = none →
        get_file_respond decode64 utf8For r = CallToolResult.success [Content.json r]) ∧
    (∀ s, (r.index "content").asStr = some s → decode64 (stripNewlines s) = none →
        get_file_respond decode64 utf8For r = CallToolResult.success [Content.json r]) ∧
    ((r.index "content").asStr = none →
        get_file_respond decode64 utf8For r = CallToolResult.success [Content.json r]) := by
  refine ⟨?_, ?_, ?_, ?_⟩ <;> intros <;> simp [get_file_respond, *]

/-- Witness for C9 at a concrete envelope whose base64 `content` decodes
to the UTF-8 text `hi`. -/
theorem C9_witness :
    get_file_respond
        (fun s => if s = "aGk=" then some [104, 105] else none)
        (fun b => if b = [104, 105] then some "hi" else none)
        (.obj [("content", .str "aGk=\n")]) =
      CallToolResult.success [Content.text "hi"] := by
  have h := C9_get_file_content_decode
    (fun s => if s = "aGk=" then some [104, 105] else none)
    (fun b => if b = [104, 105] then some "hi" else none)
    (.obj [("content", .str "aGk=\n")])
  exact h.1 "aGk=\n" [104, 105] "hi" rfl rfl rfl

/-- Witness for C10 at two concrete requests differing in every
untransmitted protection field. -/
theorem C10_witness :
    set_branch_protection_args
      { account := some "work", owner := "o", repo := "r", branch := "main",
        required_status_checks := some { strict := some true, contexts := some ["ci"] },
        enforce_admins := some true,
        required_pull_request_reviews := some
          { required_approving_review_count := some 2,
            dismiss_stale_reviews := some true, require_code_owner_reviews := some true },
        restrictions := some true, required_signatures := some true,
        required_linear_history := some true, allow_force_pushes := some true,
        allow_deletions := some true } =
    set_branch_protection_args
      { account := some "work", owner := "o", repo := "r", branch := "main",
        required_status_checks := none, enforce_admins := some true,
        required_pull_request_reviews := none, restrictions := none,
        required_signatures := none, required_linear_history := none,
        allow_force_pushes := none, allow_deletions := none } :=
  C10_protection_args_ignore_rich_fields _ _ rfl rfl rfl rfl rfl

end MultiAccountGithubMcp
